import Mathlib

/-!
Shallow embedding of `boxapi/core.py`, a thin client over the Box 2.0 HTTP
API.  Python runtime values are modelled by the inductive `PyVal`; the HTTP
transport and the local filesystem are parameters, so every endpoint method
of the `Session` class becomes a pure Lean function returning a trace
(`OpResult`) of the requests it issued, the file handles it opened and
closed, the resulting session object, and its outcome (normal return or
raised exception, as `Except`).
-/

set_option autoImplicit false

mutual

/-- Model of the Python values that flow through this client: integers,
strings, dicts (`PyDict`), `None`, floats (opaque: the client never computes
with them, only type-checks them), and raw response bytes. -/
inductive PyVal where
  | int (n : Int)
  | str (s : String)
  | dict (entries : PyDict)
  | float
  | bytes (bs : List UInt8)
  | none
deriving DecidableEq, Repr

/-- A Python dict keyed by strings, as an association list. -/
inductive PyDict where
  | nil
  | cons (key : String) (val : PyVal) (rest : PyDict)
deriving DecidableEq, Repr

end

/-- Lookup `d[k]` / `k in d`. -/
def PyDict.lookup : PyDict → String → Option PyVal
  | .nil, _ => Option.none
  | .cons k v rest, key => if k = key then some v else rest.lookup key

/-- Membership test `k in d`. -/
def PyDict.hasKey (d : PyDict) (k : String) : Bool :=
  (d.lookup k).isSome

/-- Keep the base dict's keys, overriding values present in `upd`
(first half of Python `base.update(upd)`). -/
def PyDict.overrideKeys : PyDict → PyDict → PyDict
  | .nil, _ => .nil
  | .cons k v rest, upd => .cons k ((upd.lookup k).getD v) (rest.overrideKeys upd)

/-- Entries of the first dict whose key is absent from the second. -/
def PyDict.filterNew : PyDict → PyDict → PyDict
  | .nil, _ => .nil
  | .cons k v rest, base =>
      if base.hasKey k then rest.filterNew base else .cons k v (rest.filterNew base)

/-- Concatenation of the two association lists. -/
def PyDict.append : PyDict → PyDict → PyDict
  | .nil, e => e
  | .cons k v rest, e => .cons k v (rest.append e)

/-- Python `base.update(upd)`: existing keys keep their position but take
the updated value, new keys are appended. -/
def PyDict.update (base upd : PyDict) : PyDict :=
  (base.overrideKeys upd).append (upd.filterNew base)

/-- Python 2 `str.isdigit()`: true iff the string is nonempty and every
character is a decimal digit. -/
def isDigitStr (s : String) : Bool :=
  !s.data.isEmpty && s.data.all Char.isDigit

/-- `isinstance(v, int)` in the embedding. -/
def isIntVal : PyVal → Bool
  | .int _ => true
  | _ => false

/-- Guard used twice in `numeric_id_to_object`:
`isinstance(v, int) or (isinstance(v, types.StringTypes) and v.isdigit())`. -/
def isNumericId : PyVal → Bool
  | .int _ => true
  | .str s => isDigitStr s
  | _ => false

/-- `type(v).__name__`, as used in the error messages of `core.py`. -/
def pyTypeName : PyVal → String
  | .int _ => "int"
  | .str _ => "str"
  | .dict _ => "dict"
  | .float => "float"
  | .bytes _ => "str"
  | .none => "NoneType"

/-- Python truthiness (`if v:`) for the values of the model. -/
def pyTruthy : PyVal → Bool
  | .int n => n != 0
  | .str s => s ≠ ""
  | .dict d => d != PyDict.nil
  | .float => true
  | .bytes bs => !bs.isEmpty
  | .none => false

/-- Decimal value of a list of digit characters. -/
def digitsToNat (cs : List Char) : Nat :=
  cs.foldl (fun acc c => acc * 10 + (c.toNat - 48)) 0

/-- The numeric value denoted by an identifier: an integer denotes itself, a
digit-only string denotes the parsed decimal number, everything else
denotes nothing. -/
def pyNumericValue : PyVal → Option Int
  | .int n => some n
  | .str s => if isDigitStr s then some (Int.ofNat (digitsToNat s.data)) else Option.none
  | _ => Option.none

/-- `"%s" % v`: the string Python interpolates for a value (only the cases
reachable in `core.py` matter; dict renderings are schematic). -/
def pyStr : PyVal → String
  | .int n => toString n
  | .str s => s
  | .dict _ => "{...}"
  | .float => "float"
  | .bytes _ => "bytes"
  | .none => "None"

/-- The exceptions `core.py` can raise, plus a transport-level error for a
failing HTTP round trip (`requests` raising inside `Session.action`). -/
inductive BoxError where
  | exn (msg : String)
  | typeError (msg : String)
  | valueError (msg : String)
  | notImplementedError (msg : String)
  | netError (msg : String)
deriving DecidableEq, Repr

instance : DecidableEq (Except BoxError PyVal) := fun a b =>
  match a, b with
  | .ok x, .ok y => if h : x = y then isTrue (by rw [h]) else isFalse (by intro hc; cases hc; exact h rfl)
  | .error x, .error y => if h : x = y then isTrue (by rw [h]) else isFalse (by intro hc; cases hc; exact h rfl)
  | .ok _, .error _ => isFalse (by intro hc; cases hc)
  | .error _, .ok _ => isFalse (by intro hc; cases hc)

/-- The `Session` object: `api_key` and `auth_token` are set by `__init__`;
`ticket` and `auth_url` are extra attributes assigned only by
`apply_new_authtoken` (absent, i.e. `Option.none`, until then). -/
structure Session where
  api_key : String
  auth_token : PyVal := PyVal.none
  ticket : Option PyVal := Option.none
  auth_url : Option PyVal := Option.none
deriving DecidableEq, Repr

def API_URL : String := "https://api.box.com/2.0"

def API_UPLOAD_URL : String := "https://upload.box.com/api/2.0"

/-- The request body as handed to the transport: `json.dumps(data)` when
`raw_data` is true, the raw form dict otherwise. -/
inductive Body where
  | jsonOf (v : PyVal)
  | rawForm (v : PyVal)
deriving DecidableEq, Repr

/-- One HTTP request as assembled by `Session.action`: method, full URL,
header dict, query params, optional body and multipart file parts (field
name and local path of the opened handle). -/
structure Request where
  method : String
  url : String
  headers : PyDict
  params : PyDict
  body : Option Body
  files : List (String × String)
deriving DecidableEq, Repr

/-- The transport's view of an HTTP response: the result of
`response.json()` (`Option.none` when parsing raises `ValueError`) and the
raw `response.content` bytes. -/
structure HttpResponse where
  jsonResult : Option PyVal
  content : List UInt8
deriving DecidableEq, Repr

/-- The HTTP layer (`requests.request`): may itself raise. -/
def Transport : Type := Request → Except BoxError HttpResponse

/-- Keyword arguments of `Session.action`, with the Python defaults. -/
structure ActionArgs where
  path : String
  base_path : String := API_URL
  method : String := "GET"
  headers : PyDict := PyDict.nil
  params : PyDict := PyDict.nil
  data : PyVal := PyVal.none
  raw_data : Bool := true
  files : List (String × String) := []

/-- The default Authorization header value:
`"BoxAuth api_key=%s&auth_token=%s" % (self.api_key, self.auth_token)`. -/
def authHeaderValue (s : Session) : String :=
  "BoxAuth api_key=" ++ s.api_key ++ "&auth_token=" ++ pyStr s.auth_token

/-- Request construction in `Session.action`: default Authorization header,
caller headers merged over it (when truthy), params, body (JSON-serialized
when `raw_data`), files. -/
def mkRequest (s : Session) (a : ActionArgs) : Request :=
  let base := PyDict.cons "Authorization" (PyVal.str (authHeaderValue s)) PyDict.nil
  { method := a.method
    url := a.base_path ++ a.path
    headers := if a.headers != PyDict.nil then base.update a.headers else base
    params := a.params
    body :=
      if pyTruthy a.data then
        some (if a.raw_data then Body.jsonOf a.data else Body.rawForm a.data)
      else Option.none
    files := a.files }

/-- Response handling in `Session.action`: `response.json()` when it
parses, else the raw non-empty `response.content`, else `None`. -/
def handleResponse (r : HttpResponse) : PyVal :=
  match r.jsonResult with
  | some v => v
  | Option.none => if !r.content.isEmpty then PyVal.bytes r.content else PyVal.none

/-- `Session.action`: build the request, issue exactly one round trip
through the transport, decode the response.  Returns the issued requests
alongside the outcome. -/
def Session.action (s : Session) (a : ActionArgs) (t : Transport) :
    List Request × Except BoxError PyVal :=
  let req := mkRequest s a
  ([req], (t req).map handleResponse)

/-- `Session.numeric_id_to_object`: an int or digit string is wrapped into
`{'id': value}`; a dict must already contain a numeric `id`; anything else
is a `TypeError`. -/
def numeric_id_to_object (object_ : PyVal) : Except BoxError PyVal :=
  if isNumericId object_ then
    .ok (.dict (.cons "id" object_ .nil))
  else
    match object_ with
    | .dict d =>
        if !d.hasKey "id" then
          .error (.exn "Id required.")
        else
          match d.lookup "id" with
          | some idv =>
              if !isNumericId idv then
                .error (.exn ("Id must be numeric, not " ++ pyTypeName idv ++ "."))
              else
                .ok (.dict d)
          | Option.none => .error (.exn "Id required.")
    | _ => .error (.typeError ("Invalid type (" ++ pyTypeName object_ ++ ") for object or id."))

/-- The local filesystem, as far as `os.path.exists` is concerned. -/
structure FS where
  pathExists : String → Bool

/-- `os.path.basename`. -/
def basename (p : String) : String :=
  (p.splitOn "/").getLastD ""

/-- Trace of one endpoint-method call: resulting session object, requests
issued, file handles opened and closed, and the outcome. -/
structure OpResult where
  session : Session
  requests : List Request
  fhOpened : Nat
  fhClosed : Nat
  outcome : Except BoxError PyVal
deriving DecidableEq, Repr

/-- An operation that raised before any I/O: no request, no handle. -/
def noNet (s : Session) (e : BoxError) : OpResult :=
  { session := s, requests := [], fhOpened := 0, fhClosed := 0, outcome := .error e }

/-- Run `Session.action` from an endpoint method that performs no file
handling. -/
def runAction (s : Session) (a : ActionArgs) (t : Transport) : OpResult :=
  { session := s
    requests := [mkRequest s a]
    fhOpened := 0
    fhClosed := 0
    outcome := ((t (mkRequest s a)).map handleResponse) }

/-- `Session.create_folder`: normalize the parent, then
`POST /folders` with `{"name": name, "parent": parent}` as JSON. -/
def Session.create_folder (s : Session) (name : String) (parent : PyVal) (t : Transport) :
    OpResult :=
  match numeric_id_to_object parent with
  | .error e => noNet s e
  | .ok p =>
      runAction s
        { path := "/folders", method := "POST",
          data := .dict (.cons "name" (.str name) (.cons "parent" p .nil)) } t

/-- `Session.folder_info`: the id must be an `int`, then
`GET /folders/%d`. -/
def Session.folder_info (s : Session) (folder_id : PyVal) (t : Transport) : OpResult :=
  match folder_id with
  | .int n => runAction s { path := "/folders/" ++ toString n } t
  | _ =>
      noNet s (.typeError ("The folder id should be an integer, not " ++ pyTypeName folder_id))

/-- `Session.upload_file`: the path must exist, the parent is normalized,
then the file is opened and `POST`ed multipart to the upload base URL; the
handle is closed only after `action` returns normally (no `try/finally` in
the source). -/
def Session.upload_file (s : Session) (path : String) (parent : PyVal)
    (fs : FS) (t : Transport) : OpResult :=
  if !fs.pathExists path then
    noNet s (.valueError ("The file at " ++ path ++ " does not exist."))
  else
    match numeric_id_to_object parent with
    | .error e => noNet s e
    | .ok p =>
        let req := mkRequest s
          { path := "/files/content", base_path := API_UPLOAD_URL, method := "POST",
            data := .dict (.cons "parent_id" ((PyDict.lookup (match p with | .dict d => d | _ => .nil) "id").getD .none)
                      (.cons "filename" (.str (basename path)) .nil)),
            raw_data := false,
            files := [("filename", path)] }
        match t req with
        | .error e =>
            { session := s, requests := [req], fhOpened := 1, fhClosed := 0,
              outcome := .error e }
        | .ok resp =>
            { session := s, requests := [req], fhOpened := 1, fhClosed := 1,
              outcome := .ok (handleResponse resp) }

/-- `Session.download_file`: both ids must be `int` (the version id only
when not `None`), then `GET /files/%d/content` with an optional `version`
query param. -/
def Session.download_file (s : Session) (file_id : PyVal) (version_id : PyVal)
    (t : Transport) : OpResult :=
  match file_id with
  | .int n =>
      if version_id != PyVal.none && !isIntVal version_id then
        noNet s (.typeError ("The file id should be an integer, not " ++ pyTypeName version_id))
      else
        match version_id with
        | PyVal.none => runAction s { path := "/files/" ++ toString n ++ "/content" } t
        | v =>
            runAction s
              { path := "/files/" ++ toString n ++ "/content",
                params := .cons "version" v .nil } t
  | _ =>
      noNet s (.typeError ("The file id should be an integer, not " ++ pyTypeName file_id))

/-- `Session.file_info`: the id must be an `int`, then `GET /files/%s`. -/
def Session.file_info (s : Session) (file_id : PyVal) (t : Transport) : OpResult :=
  match file_id with
  | .int n => runAction s { path := "/files/" ++ toString n } t
  | _ =>
      noNet s (.typeError ("The file id should be an integer, not " ++ pyTypeName file_id))

/-- `Session.upload_file_version`: path must exist, file id and etag must
be `int`s, then the file is opened and `POST`ed multipart with an
`If-Match` header; as in `upload_file`, the close happens only on the
normal return path. -/
def Session.upload_file_version (s : Session) (path : String) (file_id : PyVal)
    (etag : PyVal) (fs : FS) (t : Transport) : OpResult :=
  if !fs.pathExists path then
    noNet s (.valueError ("The file at " ++ path ++ " does not exist."))
  else
    match file_id with
    | .int n =>
        match etag with
        | .int e =>
            let req := mkRequest s
              { path := "/files/" ++ toString n ++ "/content",
                base_path := API_UPLOAD_URL, method := "POST",
                headers := .cons "If-Match" (.int e) .nil,
                data := .dict (.cons "name" (.str (basename path)) .nil),
                raw_data := false,
                files := [("filename", path)] }
            match t req with
            | .error err =>
                { session := s, requests := [req], fhOpened := 1, fhClosed := 0,
                  outcome := .error err }
            | .ok resp =>
                { session := s, requests := [req], fhOpened := 1, fhClosed := 1,
                  outcome := .ok (handleResponse resp) }
        | _ =>
            noNet s (.typeError ("The etag id should be an integer, not " ++ pyTypeName etag))
    | _ =>
        noNet s (.typeError ("The file id should be an integer, not " ++ pyTypeName file_id))

/-- `Session.view_file_versions`: unconditionally
`raise NotImplementedError`. -/
def Session.view_file_versions (s : Session) (file_id : PyVal) (t : Transport) : OpResult :=
  noNet s (.notImplementedError "view_file_versions is not implemented.")

/-- `Session.update_file_infomation`: unconditionally
`raise NotImplementedError`. -/
def Session.update_file_infomation (s : Session) (t : Transport) : OpResult :=
  noNet s (.notImplementedError "update_file_infomation is not implemented.")

/-- `Session.delete_file`: ids type-checked as in the source, then
`DELETE /files/%d`, with an `If-Match` header exactly when `if etag:`
(Python truthiness, not an `is not None` test) holds. -/
def Session.delete_file (s : Session) (file_id : PyVal) (etag : PyVal) (t : Transport) :
    OpResult :=
  match file_id with
  | .int n =>
      if etag != PyVal.none && !isIntVal etag then
        noNet s (.typeError ("The etag id should be an integer, not " ++ pyTypeName etag))
      else if pyTruthy etag then
        runAction s
          { path := "/files/" ++ toString n, method := "DELETE",
            headers := .cons "If-Match" etag .nil } t
      else
        runAction s { path := "/files/" ++ toString n, method := "DELETE" } t
  | _ =>
      noNet s (.typeError ("The file id should be an integer, not " ++ pyTypeName file_id))

/-- Modelled from the spec: the `auth` module (imported by `core.py` but
not part of the sources) — `get_ticket` calls the remote ticket endpoint,
`open_for_auth_ticket` builds the authorization URL, `get_auth_token`
calls the remote token endpoint.  Their behaviour is opaque here, so they
are parameters. -/
structure AuthApi where
  get_ticket : String → Except BoxError PyVal
  open_for_auth_ticket : PyVal → PyVal
  get_auth_token : String → PyVal → Except BoxError PyVal

/-- `Session.apply_new_authtoken`: assigns `self.ticket` and
`self.auth_url` from the auth module. -/
def Session.apply_new_authtoken (s : Session) (api : AuthApi) : Except BoxError Session :=
  match api.get_ticket s.api_key with
  | .error e => .error e
  | .ok tk =>
      .ok { s with ticket := some tk, auth_url := some (api.open_for_auth_ticket tk) }

/-- `Session.authorize`: fetch the token response and store
`result['response']['auth_token']['value']` into `self.auth_token`; any
failure of that chain raises `"[Error] Authorizing failed."`. -/
def Session.authorize (s : Session) (api : AuthApi) (tk : PyVal) : Except BoxError Session :=
  match api.get_auth_token s.api_key tk with
  | .error e => .error e
  | .ok result =>
      match pyGetChain result with
      | some v => .ok { s with auth_token := v }
      | Option.none => .error (.exn "[Error] Authorizing failed.")
where
  pyGetChain (result : PyVal) : Option PyVal :=
    match result with
    | .dict d =>
        match d.lookup "response" with
        | some (.dict d2) =>
            match d2.lookup "auth_token" with
            | some (.dict d3) => d3.lookup "value"
            | _ => Option.none
        | _ => Option.none
    | _ => Option.none

/-! ### Concrete fixtures used by witnesses and counterexamples -/

/-- A session as built by `Session("key")`. -/
def sTest : Session := { api_key := "key" }

/-- A transport answering every request with an empty JSON object. -/
def okTransport : Transport := fun _ =>
  .ok { jsonResult := some (.dict .nil), content := [] }

/-- A transport whose round trip raises (connection failure inside
`requests.request`). -/
def errTransport : Transport := fun _ => .error (.netError "connection reset")

/-- A filesystem containing exactly the file `f.txt`. -/
def fsF : FS := { pathExists := fun q => q == "f.txt" }

/-- The empty filesystem. -/
def fsEmpty : FS := { pathExists := fun _ => false }

/-! ### Helper lemmas -/

/-- Inputs on which `numeric_id_to_object` succeeds: numeric values, or
dicts whose `id` entry is numeric. -/
def validNormalizeInput (v : PyVal) : Bool :=
  isNumericId v ||
  (match v with
   | .dict d =>
       match d.lookup "id" with
       | some i => isNumericId i
       | Option.none => false
   | _ => false)

theorem numeric_id_ok_of_numeric (v : PyVal) (hv : isNumericId v = true) :
    numeric_id_to_object v = .ok (.dict (.cons "id" v .nil)) := by
  unfold numeric_id_to_object
  simp [hv]

theorem numeric_id_ok_shape (v r : PyVal) (h : numeric_id_to_object v = .ok r) :
    ∃ d, r = .dict d ∧ ∃ i, d.lookup "id" = some i ∧ isNumericId i = true := by
  by_cases hv : isNumericId v = true
  · rw [numeric_id_ok_of_numeric v hv] at h
    cases h
    exact ⟨.cons "id" v .nil, rfl, v, by simp [PyDict.lookup], hv⟩
  · unfold numeric_id_to_object at h
    rw [if_neg hv] at h
    cases v with
    | int n => exact absurd rfl hv
    | str s => exact absurd h (by simp)
    | float => exact absurd h (by simp)
    | bytes bs => exact absurd h (by simp)
    | none => exact absurd h (by simp)
    | dict d =>
      by_cases hk : d.hasKey "id" = true
      · rcases hkk : d.lookup "id" with _ | i
        · exact absurd hk (by simp [PyDict.hasKey, hkk])
        · simp only [hk, Bool.not_true, Bool.false_eq_true, if_false, hkk] at h
          by_cases hni : isNumericId i = true
          · simp only [hni, Bool.not_true, Bool.false_eq_true, if_false] at h
            cases h
            exact ⟨d, rfl, i, hkk, hni⟩
          · rw [Bool.not_eq_true] at hni
            simp [hni] at h
      · rw [Bool.not_eq_true] at hk
        simp [hk] at h

theorem numeric_value_isSome_of_numeric (v : PyVal) (hv : isNumericId v = true) :
    (pyNumericValue v).isSome = true := by
  cases v with
  | int n => rfl
  | str s =>
      have hs : isDigitStr s = true := by simpa [isNumericId] using hv
      simp [pyNumericValue, hs]
  | dict d => simp [isNumericId] at hv
  | float => simp [isNumericId] at hv
  | bytes bs => simp [isNumericId] at hv
  | none => simp [isNumericId] at hv

theorem numeric_id_error_of_invalid (v : PyVal) (hv : validNormalizeInput v = false) :
    ∃ e, numeric_id_to_object v = .error e := by
  have h1 : isNumericId v = false := by
    unfold validNormalizeInput at hv
    exact (Bool.or_eq_false_iff.mp hv).1
  unfold numeric_id_to_object
  rw [if_neg (by simp [h1])]
  cases v with
  | int n => simp [isNumericId] at h1
  | str s => exact ⟨_, rfl⟩
  | float => exact ⟨_, rfl⟩
  | bytes bs => exact ⟨_, rfl⟩
  | none => exact ⟨_, rfl⟩
  | dict d =>
      have h2 : (match d.lookup "id" with
                 | some i => isNumericId i
                 | Option.none => false) = false := by
        unfold validNormalizeInput at hv
        exact (Bool.or_eq_false_iff.mp hv).2
      rcases hk : d.lookup "id" with _ | i
      · refine ⟨.exn "Id required.", ?_⟩
        simp [PyDict.hasKey, hk]
      · rw [hk] at h2
        have h3 : isNumericId i = false := h2
        refine ⟨.exn ("Id must be numeric, not " ++ pyTypeName i ++ "."), ?_⟩
        simp [PyDict.hasKey, hk, h3]

/-! ### Claim C1 -/

/-- Claim C1 as written fails on digit strings: `numeric_id_to_object "42"`
returns a mapping whose `id` field is the original string `"42"`, which is
not the numeric value `42`. -/
theorem c1_normalize_counterexample :
    numeric_id_to_object (PyVal.str "42") = .ok (.dict (.cons "id" (.str "42") .nil)) ∧
    pyNumericValue (PyVal.str "42") = some 42 ∧
    PyVal.str "42" ≠ PyVal.int 42 := by
  refine ⟨by decide, by decide, by decide⟩

/-- Claim C1 (amended): for an integer or digit-only-string input the result
is the mapping `{'id': input}` — the `id` field is the original input value
(so it has the input's numeric value, but a digit string is not converted
to an integer) — and every input that is neither numeric nor a dict with a
numeric `id` entry fails with a validation error. -/
theorem c1_normalize_amended (v : PyVal) :
    (isNumericId v = true →
      numeric_id_to_object v = .ok (.dict (.cons "id" v .nil)) ∧
      (pyNumericValue v).isSome = true) ∧
    (validNormalizeInput v = false → ∃ e, numeric_id_to_object v = .error e) :=
  ⟨fun hv => ⟨numeric_id_ok_of_numeric v hv, numeric_value_isSome_of_numeric v hv⟩,
   numeric_id_error_of_invalid v⟩

/-- Witness for C1 at the inputs `5` (numeric) and a float (invalid). -/
theorem c1_normalize_amended_witness :
    (numeric_id_to_object (PyVal.int 5) = .ok (.dict (.cons "id" (.int 5) .nil)) ∧
      (pyNumericValue (PyVal.int 5)).isSome = true) ∧
    (∃ e, numeric_id_to_object PyVal.float = .error e) :=
  ⟨(c1_normalize_amended (PyVal.int 5)).1 (by decide),
   (c1_normalize_amended PyVal.float).2 (by decide)⟩

/-! ### Claim C10 -/

/-- Claim C10: `numeric_id_to_object` is idempotent — whenever it succeeds,
reapplying it to the result succeeds and returns the same mapping, and a
dict input that already carries a valid `id` is returned unchanged. -/
theorem c10_normalize_idempotent (v r : PyVal) (h : numeric_id_to_object v = .ok r) :
    numeric_id_to_object r = .ok r ∧ (∀ d, v = .dict d → r = v) := by
  obtain ⟨d, hr, i, hk, hi⟩ := numeric_id_ok_shape v r h
  constructor
  · subst hr
    unfold numeric_id_to_object
    rw [if_neg (by simp [isNumericId])]
    simp [PyDict.hasKey, hk, hi]
  · intro d' hv
    subst hv
    unfold numeric_id_to_object at h
    rw [if_neg (by simp [isNumericId])] at h
    rcases hkk : d'.lookup "id" with _ | j
    · simp [PyDict.hasKey, hkk] at h
    · by_cases hj : isNumericId j = true
      · simp [PyDict.hasKey, hkk, hj] at h
        rw [← h]
      · rw [Bool.not_eq_true] at hj
        simp [PyDict.hasKey, hkk, hj] at h

/-- Witness for C10: a dict already carrying a valid `id` is a fixed point
of `numeric_id_to_object`. -/
theorem c10_normalize_idempotent_witness :
    numeric_id_to_object (PyVal.dict (.cons "id" (.int 7) .nil)) =
      .ok (PyVal.dict (.cons "id" (.int 7) .nil)) :=
  (c10_normalize_idempotent (PyVal.dict (.cons "id" (.int 7) .nil))
    (PyVal.dict (.cons "id" (.int 7) .nil)) (by decide)).1

/-! ### Claim C5 -/

/-- Claim C5: `Session.action` returns the deserialized JSON value when the
response body parses as JSON, the raw response bytes when it does not parse
and is non-empty, and `None` when it does not parse and is empty. -/
theorem c5_action_response (s : Session) (a : ActionArgs) (t : Transport)
    (r : HttpResponse) (h : t (mkRequest s a) = .ok r) :
    (∀ v, r.jsonResult = some v →
      Session.action s a t = ([mkRequest s a], .ok v)) ∧
    (r.jsonResult = Option.none → r.content ≠ [] →
      Session.action s a t = ([mkRequest s a], .ok (.bytes r.content))) ∧
    (r.jsonResult = Option.none → r.content = [] →
      Session.action s a t = ([mkRequest s a], .ok PyVal.none)) := by
  refine ⟨?_, ?_, ?_⟩
  · intro v hv
    simp [Session.action, h, Except.map, handleResponse, hv]
  · intro hn hc
    rcases hcc : r.content with _ | ⟨b, bs⟩
    · exact absurd hcc hc
    · simp [Session.action, h, Except.map, handleResponse, hn, hcc]
  · intro hn hc
    simp [Session.action, h, Except.map, handleResponse, hn, hc]

/-- A transport answering with a JSON number. -/
def jsonTransport : Transport := fun _ =>
  .ok { jsonResult := some (.int 3), content := [123, 51, 125] }

/-- A transport answering with a non-JSON, non-empty body. -/
def rawTransport : Transport := fun _ =>
  .ok { jsonResult := Option.none, content := [104, 105] }

/-- A transport answering with a non-JSON empty body. -/
def emptyTransport : Transport := fun _ =>
  .ok { jsonResult := Option.none, content := [] }

/-- Witness for C5 on the three response kinds. -/
theorem c5_action_response_witness :
    Session.action sTest { path := "/folders" } jsonTransport =
      ([mkRequest sTest { path := "/folders" }], .ok (.int 3)) ∧
    Session.action sTest { path := "/folders" } rawTransport =
      ([mkRequest sTest { path := "/folders" }], .ok (.bytes [104, 105])) ∧
    Session.action sTest { path := "/folders" } emptyTransport =
      ([mkRequest sTest { path := "/folders" }], .ok PyVal.none) :=
  ⟨(c5_action_response sTest { path := "/folders" } jsonTransport _ rfl).1 (.int 3) rfl,
   (c5_action_response sTest { path := "/folders" } rawTransport _ rfl).2.1 rfl (by decide),
   (c5_action_response sTest { path := "/folders" } emptyTransport _ rfl).2.2 rfl rfl⟩

/-! ### Claim C6 -/

/-- Claim C6: `view_file_versions` and `update_file_infomation` raise
`NotImplementedError` on every input, issue no request, touch no file
handle, and leave the session unchanged. -/
theorem c6_not_implemented (s : Session) (file_id : PyVal) (t : Transport) :
    Session.view_file_versions s file_id t =
      noNet s (.notImplementedError "view_file_versions is not implemented.") ∧
    Session.update_file_infomation s t =
      noNet s (.notImplementedError "update_file_infomation is not implemented.") ∧
    (Session.view_file_versions s file_id t).requests = [] ∧
    (Session.view_file_versions s file_id t).session = s ∧
    (Session.update_file_infomation s t).requests = [] ∧
    (Session.update_file_infomation s t).session = s :=
  ⟨rfl, rfl, rfl, rfl, rfl, rfl⟩

/-! ### Claim C7 -/

/-- Claim C7 fails on the code: with an existing local file and a transport
whose round trip raises, both `upload_file` and `upload_file_version` open
the file handle and never close it — the `fh.close()` of the source runs
only on the normal return path, with no `try/finally` or `with` block. -/
theorem c7_upload_handle_leak :
    (Session.upload_file sTest "f.txt" (.int 1) fsF errTransport).fhOpened = 1 ∧
    (Session.upload_file sTest "f.txt" (.int 1) fsF errTransport).fhClosed = 0 ∧
    (Session.upload_file sTest "f.txt" (.int 1) fsF errTransport).outcome =
      .error (.netError "connection reset") ∧
    (Session.upload_file_version sTest "f.txt" (.int 1) (.int 2) fsF errTransport).fhOpened = 1 ∧
    (Session.upload_file_version sTest "f.txt" (.int 1) (.int 2) fsF errTransport).fhClosed = 0 ∧
    (Session.upload_file_version sTest "f.txt" (.int 1) (.int 2) fsF errTransport).outcome =
      .error (.netError "connection reset") := by
  refine ⟨by decide, by decide, by decide, by decide, by decide, by decide⟩

/-! ### Claim C9 -/

/-- A concrete auth backend for the counterexample below. -/
def authApiTest : AuthApi :=
  { get_ticket := fun _ => .ok (.str "tick"),
    open_for_auth_ticket := fun v => v,
    get_auth_token := fun _ _ => .ok PyVal.none }

/-- Claim C9 fails on the code: `apply_new_authtoken` (not `authorize`)
also mutates the session, assigning its `ticket` and `auth_url`
attributes. -/
theorem c9_session_mutation_counterexample :
    Session.apply_new_authtoken sTest authApiTest =
      .ok { sTest with ticket := some (.str "tick"), auth_url := some (.str "tick") } ∧
    ({ sTest with ticket := some (.str "tick"), auth_url := some (.str "tick") } : Session) ≠
      sTest :=
  ⟨rfl, by decide⟩

/-- Claim C9 (amended): session state is mutated only by the
authorization-flow methods (`authorize` and `apply_new_authtoken`); every
endpoint operation returns the session object unchanged. -/
theorem c9_session_frame (s : Session) (name path : String) (v w : PyVal)
    (fs : FS) (t : Transport) :
    (Session.create_folder s name v t).session = s ∧
    (Session.folder_info s v t).session = s ∧
    (Session.upload_file s path v fs t).session = s ∧
    (Session.download_file s v w t).session = s ∧
    (Session.file_info s v t).session = s ∧
    (Session.upload_file_version s path v w fs t).session = s ∧
    (Session.view_file_versions s v t).session = s ∧
    (Session.update_file_infomation s t).session = s ∧
    (Session.delete_file s v w t).session = s := by
  refine ⟨?_, ?_, ?_, ?_, ?_, ?_, rfl, rfl, ?_⟩
  · unfold Session.create_folder
    (repeat' split) <;> rfl
  · unfold Session.folder_info
    (repeat' split) <;> rfl
  · unfold Session.upload_file
    dsimp only
    (repeat' split) <;> rfl
  · unfold Session.download_file
    (repeat' split) <;> rfl
  · unfold Session.file_info
    (repeat' split) <;> rfl
  · unfold Session.upload_file_version
    dsimp only
    (repeat' split) <;> rfl
  · unfold Session.delete_file
    (repeat' split) <;> rfl

/-! ### Claim C3 -/

/-- Claim C3 as written fails on the code: `delete_file` tests the etag
with Python truthiness (`if etag:`), so the supplied non-`None` integer
etag `0` produces a DELETE request without an `If-Match` header. -/
theorem c3_delete_ifmatch_counterexample :
    (Session.delete_file sTest (.int 1) (.int 0) okTransport).requests.length = 1 ∧
    (Session.delete_file sTest (.int 1) (.int 0) okTransport).requests.all
      (fun req => req.method == "DELETE" && !req.headers.hasKey "If-Match") = true := by
  refine ⟨by decide, by decide⟩

/-- Claim C3 (amended): `delete_file` sends the `If-Match: etag` header
exactly when the supplied integer etag is truthy, i.e. nonzero; when the
etag is `None` or `0` the DELETE request carries no `If-Match` header. -/
theorem c3_delete_ifmatch (s : Session) (n e : Int) (t : Transport) :
    (e ≠ 0 →
      ∃ req, (Session.delete_file s (.int n) (.int e) t).requests = [req] ∧
        req.method = "DELETE" ∧
        req.headers.lookup "If-Match" = some (.int e)) ∧
    (e = 0 →
      ∃ req, (Session.delete_file s (.int n) (.int e) t).requests = [req] ∧
        req.method = "DELETE" ∧
        req.headers.lookup "If-Match" = Option.none) ∧
    (∃ req, (Session.delete_file s (.int n) PyVal.none t).requests = [req] ∧
      req.method = "DELETE" ∧
      req.headers.lookup "If-Match" = Option.none) := by
  refine ⟨?_, ?_, ?_⟩
  · intro he
    have htr : pyTruthy (PyVal.int e) = true := by
      simp [pyTruthy, bne_iff_ne, he]
    refine ⟨mkRequest s
      { path := "/files/" ++ toString n, method := "DELETE",
        headers := .cons "If-Match" (.int e) .nil }, ?_, rfl, ?_⟩
    · simp [Session.delete_file, isIntVal, htr, runAction]
    · simp [mkRequest, PyDict.update, PyDict.overrideKeys, PyDict.filterNew,
        PyDict.append, PyDict.lookup, PyDict.hasKey]
  · intro he
    subst he
    refine ⟨mkRequest s { path := "/files/" ++ toString n, method := "DELETE" }, ?_, rfl, ?_⟩
    · simp [Session.delete_file, isIntVal, pyTruthy, runAction]
    · simp [mkRequest, PyDict.lookup]
  · refine ⟨mkRequest s { path := "/files/" ++ toString n, method := "DELETE" }, ?_, rfl, ?_⟩
    · simp [Session.delete_file, isIntVal, pyTruthy, runAction]
    · simp [mkRequest, PyDict.lookup]

/-- Witness for C3 at etag `5` (header present) and etag `0` / `None`
(header absent). -/
theorem c3_delete_ifmatch_witness :
    (∃ req, (Session.delete_file sTest (.int 1) (.int 5) okTransport).requests = [req] ∧
      req.method = "DELETE" ∧
      req.headers.lookup "If-Match" = some (.int 5)) ∧
    (∃ req, (Session.delete_file sTest (.int 1) (.int 0) okTransport).requests = [req] ∧
      req.method = "DELETE" ∧
      req.headers.lookup "If-Match" = Option.none) ∧
    (∃ req, (Session.delete_file sTest (.int 1) PyVal.none okTransport).requests = [req] ∧
      req.method = "DELETE" ∧
      req.headers.lookup "If-Match" = Option.none) :=
  ⟨(c3_delete_ifmatch sTest 1 5 okTransport).1 (by decide),
   (c3_delete_ifmatch sTest 1 0 okTransport).2.1 rfl,
   (c3_delete_ifmatch sTest 1 0 okTransport).2.2⟩

/-! ### Claim C4 -/

/-- Claim C4: `folder_info`, `file_info`, `download_file` (also its
version argument) and `delete_file` (also its etag argument) each raise a
`TypeError` on a non-integer id — e.g. a non-digit string or a float —
issuing no network request. -/
theorem c4_type_errors (s : Session) (t : Transport) (v : PyVal)
    (hv : isIntVal v = false) (hn : v ≠ PyVal.none) :
    Session.folder_info s v t =
      noNet s (.typeError ("The folder id should be an integer, not " ++ pyTypeName v)) ∧
    Session.file_info s v t =
      noNet s (.typeError ("The file id should be an integer, not " ++ pyTypeName v)) ∧
    Session.download_file s v PyVal.none t =
      noNet s (.typeError ("The file id should be an integer, not " ++ pyTypeName v)) ∧
    Session.download_file s (.int 7) v t =
      noNet s (.typeError ("The file id should be an integer, not " ++ pyTypeName v)) ∧
    Session.delete_file s v PyVal.none t =
      noNet s (.typeError ("The file id should be an integer, not " ++ pyTypeName v)) ∧
    Session.delete_file s (.int 7) v t =
      noNet s (.typeError ("The etag id should be an integer, not " ++ pyTypeName v)) := by
  cases v with
  | int n => simp [isIntVal] at hv
  | none => exact absurd rfl hn
  | str s0 => exact ⟨rfl, rfl, rfl, rfl, rfl, rfl⟩
  | dict d => exact ⟨rfl, rfl, rfl, rfl, rfl, rfl⟩
  | float => exact ⟨rfl, rfl, rfl, rfl, rfl, rfl⟩
  | bytes bs => exact ⟨rfl, rfl, rfl, rfl, rfl, rfl⟩

/-- Witness for C4 at the non-integer id `"abc"`. -/
theorem c4_type_errors_witness :
    Session.folder_info sTest (.str "abc") okTransport =
      noNet sTest (.typeError ("The folder id should be an integer, not " ++ pyTypeName (.str "abc"))) ∧
    Session.file_info sTest (.str "abc") okTransport =
      noNet sTest (.typeError ("The file id should be an integer, not " ++ pyTypeName (.str "abc"))) ∧
    Session.download_file sTest (.str "abc") PyVal.none okTransport =
      noNet sTest (.typeError ("The file id should be an integer, not " ++ pyTypeName (.str "abc"))) ∧
    Session.download_file sTest (.int 7) (.str "abc") okTransport =
      noNet sTest (.typeError ("The file id should be an integer, not " ++ pyTypeName (.str "abc"))) ∧
    Session.delete_file sTest (.str "abc") PyVal.none okTransport =
      noNet sTest (.typeError ("The file id should be an integer, not " ++ pyTypeName (.str "abc"))) ∧
    Session.delete_file sTest (.int 7) (.str "abc") okTransport =
      noNet sTest (.typeError ("The etag id should be an integer, not " ++ pyTypeName (.str "abc"))) :=
  c4_type_errors sTest okTransport (.str "abc") (by decide) (by decide)

/-! ### Claim C2 -/

/-- Claim C2 as written fails: the identifier `-1` is negative, yet
`folder_info` accepts it (it passes `isinstance(_, int)`) and issues a GET
request whose URL names the folder `-1`, instead of failing. -/
theorem c2_identifier_counterexample :
    (Session.folder_info sTest (.int (-1)) okTransport).requests.map Request.url =
      [API_URL ++ "/folders/-1"] ∧
    (Session.folder_info sTest (.int (-1)) okTransport).outcome = .ok (.dict .nil) ∧
    pyNumericValue (PyVal.int (-1)) = some (-1) ∧
    (-1 : Int) < 0 := by
  refine ⟨by decide, by decide, by decide, by decide⟩

/-- Claim C2 (amended): for every endpoint operation, either every
identifier argument is integer-like — an `int` of any sign, or, where
normalization applies, a value whose normalized `id` entry is an int or
digit string — or the call fails before issuing any request (negative
integers are accepted, so the resolved value need not be non-negative). -/
theorem c2_identifier_invariant (s : Session) (fs : FS) (t : Transport)
    (name path : String) (v w : PyVal) :
    ((Session.create_folder s name v t).requests ≠ [] →
      ∃ d i, numeric_id_to_object v = .ok (.dict d) ∧
        d.lookup "id" = some i ∧ isNumericId i = true) ∧
    ((Session.folder_info s v t).requests ≠ [] → isIntVal v = true) ∧
    ((Session.upload_file s path v fs t).requests ≠ [] →
      ∃ d i, numeric_id_to_object v = .ok (.dict d) ∧
        d.lookup "id" = some i ∧ isNumericId i = true) ∧
    ((Session.download_file s v w t).requests ≠ [] →
      isIntVal v = true ∧ (w = PyVal.none ∨ isIntVal w = true)) ∧
    ((Session.file_info s v t).requests ≠ [] → isIntVal v = true) ∧
    ((Session.upload_file_version s path v w fs t).requests ≠ [] →
      isIntVal v = true ∧ isIntVal w = true) ∧
    ((Session.delete_file s v w t).requests ≠ [] →
      isIntVal v = true ∧ (w = PyVal.none ∨ isIntVal w = true)) := by
  refine ⟨?_, ?_, ?_, ?_, ?_, ?_, ?_⟩
  · intro h
    rcases hno : numeric_id_to_object v with e | r
    · simp [Session.create_folder, hno, noNet] at h
    · obtain ⟨d, hr, i, hk, hi⟩ := numeric_id_ok_shape v r hno
      subst hr
      exact ⟨d, i, rfl, hk, hi⟩
  · intro h
    cases v <;> first | rfl | exact absurd rfl h
  · intro h
    by_cases hp : fs.pathExists path = true
    · rcases hno : numeric_id_to_object v with e | r
      · simp [Session.upload_file, hp, hno, noNet] at h
      · obtain ⟨d, hr, i, hk, hi⟩ := numeric_id_ok_shape v r hno
        subst hr
        exact ⟨d, i, rfl, hk, hi⟩
    · rw [Bool.not_eq_true] at hp
      simp [Session.upload_file, hp, noNet] at h
  · intro h
    cases v with
    | int n =>
        refine ⟨rfl, ?_⟩
        cases w with
        | none => exact Or.inl rfl
        | int m => exact Or.inr rfl
        | str s0 => exact absurd rfl h
        | dict d => exact absurd rfl h
        | float => exact absurd rfl h
        | bytes bs => exact absurd rfl h
    | str s0 => exact absurd rfl h
    | dict d => exact absurd rfl h
    | float => exact absurd rfl h
    | bytes bs => exact absurd rfl h
    | none => exact absurd rfl h
  · intro h
    cases v <;> first | rfl | exact absurd rfl h
  · intro h
    by_cases hp : fs.pathExists path = true
    · cases v with
      | int n =>
          cases w with
          | int m => exact ⟨rfl, rfl⟩
          | str s0 => simp [Session.upload_file_version, hp, noNet] at h
          | dict d => simp [Session.upload_file_version, hp, noNet] at h
          | float => simp [Session.upload_file_version, hp, noNet] at h
          | bytes bs => simp [Session.upload_file_version, hp, noNet] at h
          | none => simp [Session.upload_file_version, hp, noNet] at h
      | str s0 => simp [Session.upload_file_version, hp, noNet] at h
      | dict d => simp [Session.upload_file_version, hp, noNet] at h
      | float => simp [Session.upload_file_version, hp, noNet] at h
      | bytes bs => simp [Session.upload_file_version, hp, noNet] at h
      | none => simp [Session.upload_file_version, hp, noNet] at h
    · rw [Bool.not_eq_true] at hp
      simp [Session.upload_file_version, hp, noNet] at h
  · intro h
    cases v with
    | int n =>
        refine ⟨rfl, ?_⟩
        cases w with
        | none => exact Or.inl rfl
        | int m => exact Or.inr rfl
        | str s0 => exact absurd rfl h
        | dict d => exact absurd rfl h
        | float => exact absurd rfl h
        | bytes bs => exact absurd rfl h
    | str s0 => exact absurd rfl h
    | dict d => exact absurd rfl h
    | float => exact absurd rfl h
    | bytes bs => exact absurd rfl h
    | none => exact absurd rfl h

/-- Witness for C2 with integer-like identifiers on every operation. -/
theorem c2_identifier_invariant_witness :
    (∃ d i, numeric_id_to_object (PyVal.int 3) = .ok (.dict d) ∧
      d.lookup "id" = some i ∧ isNumericId i = true) ∧
    (isIntVal (PyVal.int 3) = true) ∧
    (isIntVal (PyVal.int 3) = true ∧ (PyVal.none = PyVal.none ∨ isIntVal PyVal.none = true)) ∧
    (isIntVal (PyVal.int 3) = true ∧ isIntVal (PyVal.int 2) = true) ∧
    (isIntVal (PyVal.int 3) = true ∧ (PyVal.int 2 = PyVal.none ∨ isIntVal (PyVal.int 2) = true)) :=
  ⟨(c2_identifier_invariant sTest fsF okTransport "n" "f.txt" (.int 3) PyVal.none).1
      (by decide),
   (c2_identifier_invariant sTest fsF okTransport "n" "f.txt" (.int 3) PyVal.none).2.1
      (by decide),
   (c2_identifier_invariant sTest fsF okTransport "n" "f.txt" (.int 3) PyVal.none).2.2.2.1
      (by decide),
   (c2_identifier_invariant sTest fsF okTransport "n" "f.txt" (.int 3) (.int 2)).2.2.2.2.2.1
      (by decide),
   (c2_identifier_invariant sTest fsF okTransport "n" "f.txt" (.int 3) (.int 2)).2.2.2.2.2.2
      (by decide)⟩

/-! ### Claim C8 -/

/-- Claim C8: every endpoint operation whose validation precondition is
violated — invalid identifier for normalization, non-integer id or etag,
missing local upload path — raises its validation error with an empty
request trace, so malformed calls never reach the network. -/
theorem c8_validation_before_network (s : Session) (fs : FS) (t : Transport)
    (name p : String) (v w : PyVal) (n : Int) (e : BoxError) :
    (numeric_id_to_object v = .error e →
      Session.create_folder s name v t = noNet s e) ∧
    (isIntVal v = false →
      Session.folder_info s v t =
        noNet s (.typeError ("The folder id should be an integer, not " ++ pyTypeName v))) ∧
    (fs.pathExists p = false →
      Session.upload_file s p v fs t =
        noNet s (.valueError ("The file at " ++ p ++ " does not exist."))) ∧
    (fs.pathExists p = true → numeric_id_to_object v = .error e →
      Session.upload_file s p v fs t = noNet s e) ∧
    (isIntVal v = false →
      Session.download_file s v w t =
        noNet s (.typeError ("The file id should be an integer, not " ++ pyTypeName v))) ∧
    (w ≠ PyVal.none → isIntVal w = false →
      Session.download_file s (.int n) w t =
        noNet s (.typeError ("The file id should be an integer, not " ++ pyTypeName w))) ∧
    (isIntVal v = false →
      Session.file_info s v t =
        noNet s (.typeError ("The file id should be an integer, not " ++ pyTypeName v))) ∧
    (fs.pathExists p = false →
      Session.upload_file_version s p v w fs t =
        noNet s (.valueError ("The file at " ++ p ++ " does not exist."))) ∧
    (fs.pathExists p = true → isIntVal v = false →
      Session.upload_file_version s p v w fs t =
        noNet s (.typeError ("The file id should be an integer, not " ++ pyTypeName v))) ∧
    (fs.pathExists p = true → isIntVal w = false →
      Session.upload_file_version s p (.int n) w fs t =
        noNet s (.typeError ("The etag id should be an integer, not " ++ pyTypeName w))) ∧
    (isIntVal v = false →
      Session.delete_file s v w t =
        noNet s (.typeError ("The file id should be an integer, not " ++ pyTypeName v))) ∧
    (w ≠ PyVal.none → isIntVal w = false →
      Session.delete_file s (.int n) w t =
        noNet s (.typeError ("The etag id should be an integer, not " ++ pyTypeName w))) := by
  refine ⟨?_, ?_, ?_, ?_, ?_, ?_, ?_, ?_, ?_, ?_, ?_, ?_⟩
  · intro he
    unfold Session.create_folder
    rw [he]
  · intro hv
    cases v with
    | int m => simp [isIntVal] at hv
    | str s0 => rfl
    | dict d => rfl
    | float => rfl
    | bytes bs => rfl
    | none => rfl
  · intro hp
    simp [Session.upload_file, hp]
  · intro hp he
    simp [Session.upload_file, hp, he]
  · intro hv
    cases v with
    | int m => simp [isIntVal] at hv
    | str s0 => rfl
    | dict d => rfl
    | float => rfl
    | bytes bs => rfl
    | none => rfl
  · intro hw hv
    cases w with
    | int m => simp [isIntVal] at hv
    | none => exact absurd rfl hw
    | str s0 => rfl
    | dict d => rfl
    | float => rfl
    | bytes bs => rfl
  · intro hv
    cases v with
    | int m => simp [isIntVal] at hv
    | str s0 => rfl
    | dict d => rfl
    | float => rfl
    | bytes bs => rfl
    | none => rfl
  · intro hp
    simp [Session.upload_file_version, hp]
  · intro hp hv
    cases v with
    | int m => simp [isIntVal] at hv
    | str s0 => simp [Session.upload_file_version, hp]
    | dict d => simp [Session.upload_file_version, hp]
    | float => simp [Session.upload_file_version, hp]
    | bytes bs => simp [Session.upload_file_version, hp]
    | none => simp [Session.upload_file_version, hp]
  · intro hp hw
    cases w with
    | int m => simp [isIntVal] at hw
    | str s0 => simp [Session.upload_file_version, hp]
    | dict d => simp [Session.upload_file_version, hp]
    | float => simp [Session.upload_file_version, hp]
    | bytes bs => simp [Session.upload_file_version, hp]
    | none => simp [Session.upload_file_version, hp]
  · intro hv
    cases v with
    | int m => simp [isIntVal] at hv
    | str s0 => rfl
    | dict d => rfl
    | float => rfl
    | bytes bs => rfl
    | none => rfl
  · intro hw hv
    cases w with
    | int m => simp [isIntVal] at hv
    | none => exact absurd rfl hw
    | str s0 => rfl
    | dict d => rfl
    | float => rfl
    | bytes bs => rfl

/-- Witness for C8: each validation failure, at concrete inputs, yields the
exact error and an empty request trace. -/
theorem c8_validation_before_network_witness :
    Session.create_folder sTest "n" (.str "abc") okTransport =
      noNet sTest (.typeError ("Invalid type (str) for object or id.")) ∧
    Session.folder_info sTest (.str "abc") okTransport =
      noNet sTest (.typeError ("The folder id should be an integer, not " ++ pyTypeName (.str "abc"))) ∧
    Session.upload_file sTest "missing.txt" (.int 1) fsEmpty okTransport =
      noNet sTest (.valueError ("The file at " ++ "missing.txt" ++ " does not exist.")) ∧
    Session.upload_file sTest "f.txt" (.str "abc") fsF okTransport =
      noNet sTest (.typeError ("Invalid type (str) for object or id.")) ∧
    Session.download_file sTest (.str "abc") PyVal.none okTransport =
      noNet sTest (.typeError ("The file id should be an integer, not " ++ pyTypeName (.str "abc"))) ∧
    Session.download_file sTest (.int 7) (.str "abc") okTransport =
      noNet sTest (.typeError ("The file id should be an integer, not " ++ pyTypeName (.str "abc"))) ∧
    Session.file_info sTest (.str "abc") okTransport =
      noNet sTest (.typeError ("The file id should be an integer, not " ++ pyTypeName (.str "abc"))) ∧
    Session.upload_file_version sTest "missing.txt" (.int 1) (.int 2) fsEmpty okTransport =
      noNet sTest (.valueError ("The file at " ++ "missing.txt" ++ " does not exist.")) ∧
    Session.upload_file_version sTest "f.txt" (.str "abc") (.int 2) fsF okTransport =
      noNet sTest (.typeError ("The file id should be an integer, not " ++ pyTypeName (.str "abc"))) ∧
    Session.upload_file_version sTest "f.txt" (.int 7) (.str "abc") fsF okTransport =
      noNet sTest (.typeError ("The etag id should be an integer, not " ++ pyTypeName (.str "abc"))) ∧
    Session.delete_file sTest (.str "abc") PyVal.none okTransport =
      noNet sTest (.typeError ("The file id should be an integer, not " ++ pyTypeName (.str "abc"))) ∧
    Session.delete_file sTest (.int 7) (.str "abc") okTransport =
      noNet sTest (.typeError ("The etag id should be an integer, not " ++ pyTypeName (.str "abc"))) :=
  ⟨(c8_validation_before_network sTest fsEmpty okTransport "n" "missing.txt" (.str "abc")
      (.str "abc") 7 (.typeError "Invalid type (str) for object or id.")).1 (by decide),
   (c8_validation_before_network sTest fsEmpty okTransport "n" "missing.txt" (.str "abc")
      (.str "abc") 7 (.typeError "Invalid type (str) for object or id.")).2.1 (by decide),
   (c8_validation_before_network sTest fsEmpty okTransport "n" "missing.txt" (.int 1)
      (.str "abc") 7 (.typeError "Invalid type (str) for object or id.")).2.2.1 (by decide),
   (c8_validation_before_network sTest fsF okTransport "n" "f.txt" (.str "abc")
      (.str "abc") 7 (.typeError "Invalid type (str) for object or id.")).2.2.2.1
      (by decide) (by decide),
   (c8_validation_before_network sTest fsEmpty okTransport "n" "missing.txt" (.str "abc")
      PyVal.none 7 (.typeError "Invalid type (str) for object or id.")).2.2.2.2.1 (by decide),
   (c8_validation_before_network sTest fsEmpty okTransport "n" "missing.txt" (.int 1)
      (.str "abc") 7 (.typeError "Invalid type (str) for object or id.")).2.2.2.2.2.1
      (by decide) (by decide),
   (c8_validation_before_network sTest fsEmpty okTransport "n" "missing.txt" (.str "abc")
      (.str "abc") 7 (.typeError "Invalid type (str) for object or id.")).2.2.2.2.2.2.1
      (by decide),
   (c8_validation_before_network sTest fsEmpty okTransport "n" "missing.txt" (.int 1)
      (.int 2) 7 (.typeError "Invalid type (str) for object or id.")).2.2.2.2.2.2.2.1
      (by decide),
   (c8_validation_before_network sTest fsF okTransport "n" "f.txt" (.str "abc")
      (.int 2) 7 (.typeError "Invalid type (str) for object or id.")).2.2.2.2.2.2.2.2.1
      (by decide) (by decide),
   (c8_validation_before_network sTest fsF okTransport "n" "f.txt" (.int 1)
      (.str "abc") 7 (.typeError "Invalid type (str) for object or id.")).2.2.2.2.2.2.2.2.2.1
      (by decide) (by decide),
   (c8_validation_before_network sTest fsEmpty okTransport "n" "missing.txt" (.str "abc")
      PyVal.none 7 (.typeError "Invalid type (str) for object or id.")).2.2.2.2.2.2.2.2.2.2.1
      (by decide),
   (c8_validation_before_network sTest fsEmpty okTransport "n" "missing.txt" (.int 1)
      (.str "abc") 7 (.typeError "Invalid type (str) for object or id.")).2.2.2.2.2.2.2.2.2.2.2
      (by decide) (by decide)⟩
